import Mathlib

/-!
Verification of the connection-worker state machine of
`src/tactionthread.cpp` (TActionThread) from the treefrog-framework
repository.

The C++ worker is embedded shallowly:

- `run` (TActionThread::run) is modelled as a function from an abstract
  environment (the results delivered by the socket, the dispatcher and the
  websocket endpoint lookup) to an `Option (List RunEvent)`: the trace of
  observable actions the worker performs, `none` when the supplied fuel is
  too small for the execution to finish.  Exceptions thrown by the
  dispatcher are values of `DispatchOutcome`; the catch blocks of `run`
  become the `Fault` branches of `iteration`.
- The goto labels `receive_end` / `socket_cleanup` / `socket_error` become
  the exit tags of `IterExit`; `runFrom` appends the cleanup events each
  label executes (fall-through included).
- The process-global `keepAliveTimeout` resolution in the constructor is
  modelled by `constructThread` acting on `KAState`.
- `waitForAllDone` and the polling loop of `readRequest` are modelled with
  explicit fuel over observation traces.
-/

namespace TreeFrog

/-- Model of QByteArray::toLower (ASCII lowering of a header value). -/
def qToLower (s : String) : String := String.mk (s.toList.map Char.toLower)

/-- Does the needle occur at the head of the haystack? -/
def leadMatch : List Char → List Char → Bool
  | [], _ => true
  | _ :: _, [] => false
  | a :: as, b :: bs => a == b && leadMatch as bs

/-- Does the needle occur anywhere in the haystack? -/
def containsSub (needle : List Char) : List Char → Bool
  | [] => leadMatch needle []
  | b :: bs => leadMatch needle (b :: bs) || containsSub needle bs

/-- Model of QByteArray::contains (substring containment). -/
def qContains (hay needle : String) : Bool :=
  containsSub needle.toList hay.toList

/-- Outcome of one call of TActionContext::execute on a request: normal
return, a thrown ClientErrorException carrying a status code, or any other
thrown std::exception. -/
inductive DispatchOutcome
  | ok
  | clientError (statusCode : Nat)
  | otherError
deriving DecidableEq

/-- A fault propagating out of the dispatch loop of `run` (the exception
unwinding to the catch blocks). -/
inductive Fault
  | client (statusCode : Nat)
  | other
deriving DecidableEq

/-- The DispatchOutcome a given Fault corresponds to. -/
def faultOutcome : Fault → DispatchOutcome
  | Fault.client s => DispatchOutcome.clientError s
  | Fault.other => DispatchOutcome.otherError

/-- Tf::InternalServerError. -/
def internalServerError : Nat := 500

/-- The slice of THttpRequest the worker inspects: the raw Connection and
Upgrade header values of its header. -/
structure THttpRequest where
  connectionHeader : String
  upgradeHeader : String
deriving DecidableEq, Inhabited

/-- Observable actions of TActionThread::run, in program order.
`counterInc`/`counterDec` are the constructor/destructor of the scoped
Counter guard; `dispatch i` is the call TActionContext::execute(reqs[i], id);
`writeResponse s hs` is TActionContext::writeResponse(s, header) with the
field list of the response header; `handshake b` records the return value
of handshakeForWebSocket; `enterKeepAliveWait` marks entry into the
waitForReadyRead(5) keep-alive loop; `closeSocket` is closeHttpSocket() at
receive_end; `drainEvents` is the eventLoop.processEvents() drain at
socket_cleanup; `release` is the unconditional socket_error block
(socketDesc = 0, TActionContext::release(), deleteLater on the socket). -/
inductive RunEvent
  | counterInc
  | counterDec
  | dispatch (idx : Nat)
  | writeResponse (statusCode : Nat) (headers : List (String × String))
  | handshake (success : Bool)
  | enterKeepAliveWait
  | closeSocket
  | drainEvents
  | release
deriving DecidableEq

/-- Number of occurrences of an event in a trace. -/
def countEv (e : RunEvent) : List RunEvent → Nat
  | [] => 0
  | x :: xs => (if x = e then 1 else 0) + countEv e xs

/-- Result of the keep-alive wait loop (lines 157-172 of run): new data
became readable, the socket left the connected state (remote-closed or
not), or idleTime reached the keep-alive timeout. -/
inductive KAOutcome
  | readyRead
  | disconnected (remoteClosed : Bool)
  | idleTimedOut
deriving DecidableEq

/-- Where one iteration of the for(;;) loop of run transfers control:
continue with the next read, break / goto receive_end, goto socket_cleanup,
or goto socket_error. -/
inductive IterExit
  | continueLoop
  | toReceiveEnd
  | toCleanup
  | toError
deriving DecidableEq

/-- The external inputs one loop iteration of run consumes: the batch
returned by readRequest, the dispatcher outcome per request index, the
TWebSocket::searchEndpoint predicate, the threadCount() observed at the
max-threads check and the outcome of the keep-alive wait if entered. -/
structure IterEnv where
  reqs : List THttpRequest
  execute : Nat → DispatchOutcome
  searchEndpoint : THttpRequest → Bool
  threadCount : Int
  kaOutcome : KAOutcome

/-- TActionThread::handshakeForWebSocket: fails exactly when
TWebSocket::searchEndpoint finds no endpoint; otherwise duplicates the
socket, builds the TWebSocket, resolves the session and returns true. -/
def handshakeForWebSocket (searchEndpoint : THttpRequest → Bool)
    (header : THttpRequest) : Bool :=
  if searchEndpoint header = false then
    false
  else
    true

/-- The dispatch loop for (auto &req : reqs) TActionContext::execute(req, id):
emits one dispatch event per request until an exception is thrown, which
aborts the rest of the batch and surfaces as a Fault. -/
def dispatchLoop (execute : Nat → DispatchOutcome) :
    List THttpRequest → Nat → List RunEvent × Option Fault
  | [], _ => ([], none)
  | _ :: rest, j =>
    match execute j with
    | DispatchOutcome.ok =>
      let r := dispatchLoop execute rest (j + 1)
      (RunEvent.dispatch j :: r.1, r.2)
    | DispatchOutcome.clientError s => ([RunEvent.dispatch j], some (Fault.client s))
    | DispatchOutcome.otherError => ([RunEvent.dispatch j], some Fault.other)

/-- One iteration of the for(;;) loop of run (lines 121-173) together with
the catch blocks (lines 175-185): the events it emits and where it sends
control.  An empty batch breaks; a Connection header containing "upgrade"
routes to the websocket branch (success: goto socket_cleanup, handshake
failure: goto socket_error, unrecognized target: goto socket_cleanup);
otherwise the batch is dispatched, a thrown fault is caught and answered
with a status-coded response over a default-constructed (empty) header and
control falls past the loop to receive_end; on success the keep-alive
decision runs (timeout 0 breaks, saturation breaks, otherwise the wait
loop is entered). -/
def iteration (keepAliveTimeout maxThreads : Int) (env : IterEnv) :
    List RunEvent × IterExit :=
  if env.reqs.isEmpty then
    ([], IterExit.toReceiveEnd)
  else
    if qContains (qToLower env.reqs.headI.connectionHeader) "upgrade" then
      if qToLower env.reqs.headI.upgradeHeader = "websocket" then
        if handshakeForWebSocket env.searchEndpoint env.reqs.headI = false then
          ([RunEvent.handshake false], IterExit.toError)
        else
          ([RunEvent.handshake true], IterExit.toCleanup)
      else
        ([], IterExit.toCleanup)
    else
      match dispatchLoop env.execute env.reqs 0 with
      | (evs, some (Fault.client s)) =>
        (evs ++ [RunEvent.writeResponse s []], IterExit.toReceiveEnd)
      | (evs, some Fault.other) =>
        (evs ++ [RunEvent.writeResponse internalServerError []], IterExit.toReceiveEnd)
      | (evs, none) =>
        if keepAliveTimeout = 0 then
          (evs, IterExit.toReceiveEnd)
        else if env.threadCount ≥ maxThreads ∧ maxThreads > 0 then
          (evs, IterExit.toReceiveEnd)
        else
          match env.kaOutcome with
          | KAOutcome.readyRead =>
            (evs ++ [RunEvent.enterKeepAliveWait], IterExit.continueLoop)
          | KAOutcome.disconnected _ =>
            (evs ++ [RunEvent.enterKeepAliveWait], IterExit.toReceiveEnd)
          | KAOutcome.idleTimedOut =>
            (evs ++ [RunEvent.enterKeepAliveWait], IterExit.toReceiveEnd)

/-- Inputs of a whole run: whether setSocketDescriptor succeeds and the
per-iteration environment. -/
structure RunEnv where
  setSocketOk : Bool
  iters : Nat → IterEnv

/-- The for(;;) loop of run from iteration i on, followed by the cleanup
code of the goto label reached.  receive_end falls through socket_cleanup
into socket_error, socket_cleanup falls into socket_error.  Returns none
when the fuel runs out before the loop exits. -/
def runFrom (keepAliveTimeout maxThreads : Int) (iters : Nat → IterEnv) :
    Nat → Nat → Option (List RunEvent)
  | 0, _ => none
  | fuel + 1, i =>
    match (iteration keepAliveTimeout maxThreads (iters i)).2 with
    | IterExit.continueLoop =>
      (runFrom keepAliveTimeout maxThreads iters fuel (i + 1)).map
        (fun evs => (iteration keepAliveTimeout maxThreads (iters i)).1 ++ evs)
    | IterExit.toReceiveEnd =>
      some ((iteration keepAliveTimeout maxThreads (iters i)).1 ++
        [RunEvent.closeSocket, RunEvent.drainEvents, RunEvent.release])
    | IterExit.toCleanup =>
      some ((iteration keepAliveTimeout maxThreads (iters i)).1 ++
        [RunEvent.drainEvents, RunEvent.release])
    | IterExit.toError =>
      some ((iteration keepAliveTimeout maxThreads (iters i)).1 ++
        [RunEvent.release])

/-- TActionThread::run.  The scoped Counter guard increments the
process-wide threadCounter on entry and decrements it when run exits, on
every path.  A setSocketDescriptor failure jumps straight to socket_error;
otherwise the loop runs with the catch blocks and cleanup of `runFrom`. -/
def run (keepAliveTimeout maxThreads : Int) (env : RunEnv) (fuel : Nat) :
    Option (List RunEvent) :=
  if env.setSocketOk = false then
    some [RunEvent.counterInc, RunEvent.release, RunEvent.counterDec]
  else
    (runFrom keepAliveTimeout maxThreads env.iters fuel 0).map
      (fun evs => RunEvent.counterInc :: (evs ++ [RunEvent.counterDec]))

/-- The process-global state the TActionThread constructor touches: the
memoized keepAliveTimeout (sentinel -1 = not yet resolved) and how many
times the configuration has been read. -/
structure KAState where
  keepAliveTimeout : Int
  configReads : Nat
deriving DecidableEq

/-- The global state at process start: keepAliveTimeout = -1, no reads. -/
def initState : KAState := { keepAliveTimeout := -1, configReads := 0 }

/-- Tf::appSettings()->value(Tf::HttpKeepAliveTimeout, "10").toInt():
the stored setting when present, otherwise the default "10". -/
def appSettingsKeepAlive (stored : Option Int) : Int := stored.getD 10

/-- The body of the TActionThread constructor acting on the global state:
when the sentinel is still negative, read the configuration once and cache
qMax(timeout, 0); otherwise leave the state untouched. -/
def constructThread (stored : Option Int) (s : KAState) : KAState :=
  if s.keepAliveTimeout < 0 then
    { keepAliveTimeout := max (appSettingsKeepAlive stored) 0,
      configReads := s.configReads + 1 }
  else
    s

/-- The global state after n worker constructions from process start. -/
def constructAll (stored : Option Int) : Nat → KAState
  | 0 => initState
  | n + 1 => constructThread stored (constructAll stored n)

/-- TActionThread::waitForAllDone over an abstract observation trace:
counts i is the threadCount() read at poll i, elapsed i the timer value at
that poll.  Returns the final (cnt == 0) flag and the index of the final
poll, which equals the number of msleep(5)/processEvents cycles performed;
none when the fuel runs out. -/
def waitForAllDone (counts : Nat → Nat) (elapsed : Nat → Int) (msec : Int) :
    Nat → Nat → Option (Bool × Nat)
  | 0, _ => none
  | fuel + 1, i =>
    if counts i > 0 then
      if elapsed i > msec then
        some (false, i)
      else
        waitForAllDone counts elapsed msec fuel (i + 1)
    else
      some (true, i)

/-- The socket observations the readRequest polling loop consumes at poll
i: canReadRequest(), idleTime() and whether state() == ConnectedState. -/
structure SocketTrace where
  canReadRequest : Nat → Bool
  idleTime : Nat → Int
  connectedState : Nat → Bool

/-- Why the readRequest polling loop stopped. -/
inductive ReadExit
  | gotRequest
  | idleTimedOut
  | disconnected
deriving DecidableEq

/-- The while (!socket->canReadRequest()) loop of TActionThread::readRequest:
each poll first checks canReadRequest, then the idle timeout (only when
keepAliveTimeout > 0), then the connection state, then waits 200ms and
repeats.  Returns the poll index and exit reason, none when fuel runs out. -/
def readRequestLoop (keepAliveTimeout : Int) (tr : SocketTrace) :
    Nat → Nat → Option (Nat × ReadExit)
  | 0, _ => none
  | fuel + 1, i =>
    if tr.canReadRequest i then
      some (i, ReadExit.gotRequest)
    else if keepAliveTimeout > 0 ∧ tr.idleTime i ≥ keepAliveTimeout then
      some (i, ReadExit.idleTimedOut)
    else if tr.connectedState i = false then
      some (i, ReadExit.disconnected)
    else
      readRequestLoop keepAliveTimeout tr fuel (i + 1)

/-- TActionThread::readRequest: run the polling loop; if no complete
request is available, abort the socket and return the empty batch,
otherwise return the parsed batch socket->read() yields. -/
def readRequest (keepAliveTimeout : Int) (tr : SocketTrace)
    (parsed : List THttpRequest) (fuel : Nat) :
    Option (List THttpRequest × ReadExit) :=
  (readRequestLoop keepAliveTimeout tr fuel 0).map
    (fun r => (if r.2 = ReadExit.gotRequest then parsed else [], r.2))

example : qContains (qToLower "Keep-Alive, Upgrade") "upgrade" = true := by decide

example : qContains (qToLower "keep-alive") "upgrade" = false := by decide

theorem countEv_append (e : RunEvent) (l₁ l₂ : List RunEvent) :
    countEv e (l₁ ++ l₂) = countEv e l₁ + countEv e l₂ := by
  induction l₁ with
  | nil => simp [countEv]
  | cons x xs ih => simp [countEv, ih, Nat.add_assoc]

theorem countEv_eq_zero {x : RunEvent} :
    ∀ {l : List RunEvent}, (∀ e ∈ l, e ≠ x) → countEv x l = 0 := by
  intro l
  induction l with
  | nil => intro _; rfl
  | cons a as ih =>
    intro h
    have ha : a ≠ x := h a (by simp)
    simp [countEv, ha, ih (fun e he => h e (by simp [he]))]

theorem dispatchLoop_events (execute : Nat → DispatchOutcome) :
    ∀ (reqs : List THttpRequest) (j : Nat) (e : RunEvent),
      e ∈ (dispatchLoop execute reqs j).1 → ∃ t, e = RunEvent.dispatch t := by
  intro reqs
  induction reqs with
  | nil =>
    intro j e he
    simp [dispatchLoop] at he
  | cons r rest ih =>
    intro j e he
    unfold dispatchLoop at he
    cases hx : execute j with
    | ok =>
      rw [hx] at he
      simp at he
      rcases he with he | he
      · exact ⟨j, he⟩
      · exact ih (j + 1) e he
    | clientError s =>
      rw [hx] at he
      simp at he
      exact ⟨j, he⟩
    | otherError =>
      rw [hx] at he
      simp at he
      exact ⟨j, he⟩

theorem dispatchLoop_count_ne (execute : Nat → DispatchOutcome)
    (reqs : List THttpRequest) (j : Nat) (x : RunEvent)
    (hx : ∀ t, x ≠ RunEvent.dispatch t) :
    countEv x (dispatchLoop execute reqs j).1 = 0 := by
  apply countEv_eq_zero
  intro e he heq
  rcases dispatchLoop_events execute reqs j e he with ⟨t, rfl⟩
  exact hx t heq.symm

theorem dispatch_range_shift (j n : Nat) :
    RunEvent.dispatch j :: (List.range n).map (fun t => RunEvent.dispatch (j + 1 + t)) =
      (List.range (n + 1)).map (fun t => RunEvent.dispatch (j + t)) := by
  rw [List.range_succ_eq_map, List.map_cons, List.map_map, Nat.add_zero]
  refine congrArg (fun l => RunEvent.dispatch j :: l) ?_
  apply List.map_congr_left
  intro a _
  have h : j + 1 + a = j + (a + 1) := by omega
  simp [Function.comp, h]

theorem dispatchLoop_ok (execute : Nat → DispatchOutcome) :
    ∀ (reqs : List THttpRequest) (j : Nat),
      (∀ t, t < reqs.length → execute (j + t) = DispatchOutcome.ok) →
      dispatchLoop execute reqs j =
        ((List.range reqs.length).map (fun t => RunEvent.dispatch (j + t)), none) := by
  intro reqs
  induction reqs with
  | nil =>
    intro j _
    simp [dispatchLoop]
  | cons r rest ih =>
    intro j h
    have h0 : execute j = DispatchOutcome.ok := by simpa using h 0 (by simp)
    have hrec := ih (j + 1) (fun t ht => by
      have := h (t + 1) (by simpa using Nat.succ_lt_succ ht)
      rw [show j + 1 + t = j + (t + 1) from by omega]
      exact this)
    unfold dispatchLoop
    rw [h0, hrec]
    simp only [List.length_cons]
    rw [← dispatch_range_shift]

theorem dispatchLoop_fault (execute : Nat → DispatchOutcome) :
    ∀ (reqs : List THttpRequest) (j k : Nat) (f : Fault),
      (∀ t, t < k → execute (j + t) = DispatchOutcome.ok) →
      k < reqs.length →
      execute (j + k) = faultOutcome f →
      dispatchLoop execute reqs j =
        ((List.range (k + 1)).map (fun t => RunEvent.dispatch (j + t)), some f) := by
  intro reqs
  induction reqs with
  | nil =>
    intro j k f _ hk _
    simp at hk
  | cons r rest ih =>
    intro j k f hok hk hf
    cases k with
    | zero =>
      have h0 : execute j = faultOutcome f := by simpa using hf
      unfold dispatchLoop
      rw [h0]
      cases f <;> rfl
    | succ k =>
      have h0 : execute j = DispatchOutcome.ok := by simpa using hok 0 (Nat.succ_pos k)
      have hrec := ih (j + 1) k f (fun t ht => by
          have := hok (t + 1) (Nat.succ_lt_succ ht)
          rw [show j + 1 + t = j + (t + 1) from by omega]
          exact this)
        (by simpa using Nat.lt_of_succ_lt_succ hk)
        (by
          rw [show j + 1 + k = j + (k + 1) from by omega]
          exact hf)
      unfold dispatchLoop
      rw [h0, hrec]
      rw [← dispatch_range_shift j (k + 1)]

/-- Claim C6: within one read batch the worker dispatches the Request Units
strictly in read order (events dispatch 0, 1, ... in arrival order), and a
fault thrown while dispatching unit k stops the batch: exactly units
0..k are dispatched and units k+1.. are never attempted. -/
theorem dispatch_in_order_fault_stops_batch
    (execute : Nat → DispatchOutcome) (reqs : List THttpRequest) (j k : Nat) :
    ((∀ t, t < reqs.length → execute (j + t) = DispatchOutcome.ok) →
      dispatchLoop execute reqs j =
        ((List.range reqs.length).map (fun t => RunEvent.dispatch (j + t)), none))
    ∧ ((∀ t, t < k → execute (j + t) = DispatchOutcome.ok) →
      k < reqs.length →
      ¬ execute (j + k) = DispatchOutcome.ok →
      (dispatchLoop execute reqs j).1 =
        (List.range (k + 1)).map (fun t => RunEvent.dispatch (j + t))) := by
  constructor
  · exact dispatchLoop_ok execute reqs j
  · intro hok hk hne
    cases hx : execute (j + k) with
    | ok => exact absurd hx hne
    | clientError s =>
      rw [dispatchLoop_fault execute reqs j k (Fault.client s) hok hk
        (by simp [faultOutcome, hx])]
    | otherError =>
      rw [dispatchLoop_fault execute reqs j k Fault.other hok hk
        (by simp [faultOutcome, hx])]

def c6Execute : Nat → DispatchOutcome :=
  fun t => if t < 2 then DispatchOutcome.ok else DispatchOutcome.clientError 400

def c6Reqs : List THttpRequest := [default, default, default]

theorem dispatch_in_order_fault_stops_batch_witness :
    (dispatchLoop c6Execute c6Reqs 0).1 =
      (List.range (2 + 1)).map (fun t => RunEvent.dispatch (0 + t)) :=
  (dispatch_in_order_fault_stops_batch c6Execute c6Reqs 0 2).2
    (fun t ht => by
      have : t = 0 ∨ t = 1 := by omega
      rcases this with rfl | rfl <;> rfl)
    (by decide) (by decide)

/-- Claim C8: the keep-alive timeout is resolved at most once per process.
The first worker construction reads the configuration (default 10 when the
setting is absent), clamps a negative value to zero and caches the result;
every construction on an already-resolved (non-negative) state changes
nothing and reads nothing; after any n ≥ 1 constructions the state equals
the state after the first; the configuration is read at most once. -/
theorem keepalive_resolved_once (stored : Option Int) (n : Nat) :
    appSettingsKeepAlive none = 10
    ∧ (constructThread stored initState).configReads = 1
    ∧ (constructThread stored initState).keepAliveTimeout =
        max (appSettingsKeepAlive stored) 0
    ∧ 0 ≤ (constructThread stored initState).keepAliveTimeout
    ∧ (∀ s : KAState, 0 ≤ s.keepAliveTimeout → constructThread stored s = s)
    ∧ (1 ≤ n → constructAll stored n = constructThread stored initState)
    ∧ (constructAll stored n).configReads ≤ 1 := by
  have hfix : ∀ s : KAState, 0 ≤ s.keepAliveTimeout → constructThread stored s = s := by
    intro s hs
    unfold constructThread
    rw [if_neg (by omega)]
  have hres : 0 ≤ (constructThread stored initState).keepAliveTimeout := by
    unfold constructThread
    rw [if_pos (by decide)]
    exact le_max_right _ _
  have hsucc : ∀ m : Nat, constructAll stored (m + 1) = constructThread stored initState := by
    intro m
    induction m with
    | zero => rfl
    | succ p ihp =>
      rw [constructAll, ihp]
      exact hfix _ hres
  refine ⟨rfl, rfl, rfl, hres, hfix, ?_, ?_⟩
  · intro hn
    cases n with
    | zero => exact absurd hn (by omega)
    | succ m => exact hsucc m
  · cases n with
    | zero => exact Nat.zero_le 1
    | succ m =>
      rw [hsucc m]
      exact Nat.le_of_eq rfl

theorem keepalive_resolved_once_witness :
    constructAll (some (-7)) 3 = constructThread (some (-7)) initState :=
  (keepalive_resolved_once (some (-7)) 3).2.2.2.2.2.1 (by omega)

/-- Claim C9: waitForAllDone polls the live worker count with a sleep and
an event-processing yield between polls; it returns true exactly when the
final polled count is zero (timeout with a positive count returns false),
and when the count is already zero at the first poll it returns true at
poll index 0, having performed no sleep cycle. -/
theorem waitForAllDone_drain (counts : Nat → Nat) (elapsed : Nat → Int)
    (msec : Int) (fuel i : Nat) (b : Bool) (s : Nat) :
    (waitForAllDone counts elapsed msec fuel i = some (b, s) →
      (b = true ↔ counts s = 0))
    ∧ (counts 0 = 0 → 1 ≤ fuel →
      waitForAllDone counts elapsed msec fuel 0 = some (true, 0)) := by
  constructor
  · induction fuel generalizing i with
    | zero =>
      intro h
      simp [waitForAllDone] at h
    | succ fuel ih =>
      intro h
      rw [waitForAllDone] at h
      by_cases hcnt : counts i > 0
      · rw [if_pos hcnt] at h
        by_cases helap : elapsed i > msec
        · rw [if_pos helap] at h
          simp only [Option.some.injEq, Prod.mk.injEq] at h
          rcases h with ⟨hb, hs⟩
          subst hb
          subst hs
          simp only [Bool.false_eq_true, false_iff]
          omega
        · rw [if_neg helap] at h
          exact ih (i + 1) h
      · rw [if_neg hcnt] at h
        simp only [Option.some.injEq, Prod.mk.injEq] at h
        rcases h with ⟨hb, hs⟩
        subst hb
        subst hs
        simp only [true_iff]
        omega
  · intro h0 hfuel
    cases fuel with
    | zero => exact absurd hfuel (by omega)
    | succ fuel =>
      rw [waitForAllDone]
      rw [if_neg (by omega)]

theorem waitForAllDone_drain_witness :
    waitForAllDone (fun _ => 0) (fun i => (i : Int)) 100 5 0 = some (true, 0) :=
  (waitForAllDone_drain (fun _ => 0) (fun i => (i : Int)) 100 5 0 true 0).2 rfl (by omega)

/-- Claim C10: with the cached keep-alive timeout equal to 0 the idle-time
abort in readRequest is disabled (the check requires keepAliveTimeout > 0):
the polling loop never exits with the idle-timeout reason, and on a socket
where no complete request ever becomes readable it can only exit because
the socket left the connected state. -/
theorem zero_timeout_read_no_idle_abort (tr : SocketTrace)
    (fuel i j : Nat) (r : ReadExit) :
    (readRequestLoop 0 tr fuel i = some (j, r) → ¬ r = ReadExit.idleTimedOut)
    ∧ ((∀ t, tr.canReadRequest t = false) →
      readRequestLoop 0 tr fuel i = some (j, r) → r = ReadExit.disconnected) := by
  constructor
  · induction fuel generalizing i with
    | zero =>
      intro h
      simp [readRequestLoop] at h
    | succ fuel ih =>
      intro h
      rw [readRequestLoop] at h
      by_cases hc : tr.canReadRequest i = true
      · rw [if_pos hc] at h
        simp only [Option.some.injEq, Prod.mk.injEq] at h
        rcases h with ⟨_, hr⟩
        subst hr
        simp
      · rw [if_neg hc] at h
        rw [if_neg (by omega : ¬((0 : Int) > 0 ∧ tr.idleTime i ≥ (0 : Int)))] at h
        by_cases hs : tr.connectedState i = false
        · rw [if_pos hs] at h
          simp only [Option.some.injEq, Prod.mk.injEq] at h
          rcases h with ⟨_, hr⟩
          subst hr
          simp
        · rw [if_neg hs] at h
          exact ih (i + 1) h
  · induction fuel generalizing i with
    | zero =>
      intro _ h
      simp [readRequestLoop] at h
    | succ fuel ih =>
      intro hcan h
      rw [readRequestLoop] at h
      rw [if_neg (by simp [hcan i])] at h
      rw [if_neg (by omega : ¬((0 : Int) > 0 ∧ tr.idleTime i ≥ (0 : Int)))] at h
      by_cases hs : tr.connectedState i = false
      · rw [if_pos hs] at h
        simp only [Option.some.injEq, Prod.mk.injEq] at h
        rcases h with ⟨_, hr⟩
        subst hr
        rfl
      · rw [if_neg hs] at h
        exact ih (i + 1) hcan h

def c10Trace : SocketTrace :=
  { canReadRequest := fun _ => false,
    idleTime := fun i => (i : Int),
    connectedState := fun i => i < 3 }

theorem zero_timeout_read_no_idle_abort_witness :
    ¬ ReadExit.disconnected = ReadExit.idleTimedOut :=
  (zero_timeout_read_no_idle_abort c10Trace 10 0 3 ReadExit.disconnected).1 (by decide)

theorem dispatchLoop_count_KA (execute : Nat → DispatchOutcome)
    (reqs : List THttpRequest) (j : Nat) (l : List RunEvent) (f : Option Fault)
    (hd : dispatchLoop execute reqs j = (l, f)) :
    countEv RunEvent.enterKeepAliveWait l = 0 := by
  have hcnt := dispatchLoop_count_ne execute reqs j
    RunEvent.enterKeepAliveWait (fun t => by simp)
  rw [hd] at hcnt
  exact hcnt

theorem iteration_break (kat maxT : Int) (env : IterEnv)
    (h : kat = 0 ∨ (env.threadCount ≥ maxT ∧ maxT > 0)) :
    (iteration kat maxT env).2 ≠ IterExit.continueLoop
    ∧ countEv RunEvent.enterKeepAliveWait (iteration kat maxT env).1 = 0
    ∧ (env.reqs.isEmpty = false →
      qContains (qToLower env.reqs.headI.connectionHeader) "upgrade" = false →
      (dispatchLoop env.execute env.reqs 0).2 = none →
      (iteration kat maxT env).2 = IterExit.toReceiveEnd) := by
  unfold iteration
  split
  · exact ⟨by simp, rfl, fun _ _ _ => rfl⟩
  · split
    · split
      · split
        · exact ⟨by simp, rfl, fun _ h2 _ => by simp_all⟩
        · exact ⟨by simp, rfl, fun _ h2 _ => by simp_all⟩
      · exact ⟨by simp, rfl, fun _ h2 _ => by simp_all⟩
    · split
      · rename_i evs s heq
        exact ⟨by simp, by simp [countEv_append, countEv, dispatchLoop_count_KA _ _ _ _ _ heq],
          fun _ _ _ => rfl⟩
      · rename_i evs heq
        exact ⟨by simp, by simp [countEv_append, countEv, dispatchLoop_count_KA _ _ _ _ _ heq],
          fun _ _ _ => rfl⟩
      · rename_i evs heq
        split
        · exact ⟨by simp, dispatchLoop_count_KA _ _ _ _ _ heq, fun _ _ _ => rfl⟩
        · rename_i hkat
          have hc : env.threadCount ≥ maxT ∧ maxT > 0 := by
            rcases h with h | h
            · exact absurd h hkat
            · exact h
          rw [if_pos hc]
          exact ⟨by simp, dispatchLoop_count_KA _ _ _ _ _ heq, fun _ _ _ => rfl⟩

/-- Claim C2: with a resolved keep-alive timeout of 0 an iteration never
hands control back to the read loop and never enters the keep-alive wait;
when the batch is a successfully dispatched non-upgrade batch the exit is
the break to receive_end, i.e. the connection closes after one batch. -/
theorem zero_timeout_never_keepalive (maxT : Int) (env : IterEnv) :
    (iteration 0 maxT env).2 ≠ IterExit.continueLoop
    ∧ countEv RunEvent.enterKeepAliveWait (iteration 0 maxT env).1 = 0
    ∧ (env.reqs.isEmpty = false →
      qContains (qToLower env.reqs.headI.connectionHeader) "upgrade" = false →
      (dispatchLoop env.execute env.reqs 0).2 = none →
      (iteration 0 maxT env).2 = IterExit.toReceiveEnd) :=
  iteration_break 0 maxT env (Or.inl rfl)

def plainReq : THttpRequest := { connectionHeader := "Keep-Alive", upgradeHeader := "" }

def c2Iter : IterEnv :=
  { reqs := [plainReq], execute := fun _ => DispatchOutcome.ok,
    searchEndpoint := fun _ => true, threadCount := 0,
    kaOutcome := KAOutcome.readyRead }

theorem zero_timeout_never_keepalive_witness :
    (iteration 0 1000 c2Iter).2 = IterExit.toReceiveEnd :=
  (zero_timeout_never_keepalive 1000 c2Iter).2.2 (by decide) (by decide) (by decide)

/-- Claim C5: when the max-workers bound m is positive and the observed
live worker count is at or above m, an iteration never continues into the
keep-alive wait regardless of the keep-alive timeout value, and a
successfully dispatched non-upgrade batch exits via the break to
receive_end (the connection closes); when m ≤ 0 the bound is not enforced:
with a nonzero timeout a successfully dispatched non-upgrade batch enters
the keep-alive wait exactly once. -/
theorem max_threads_load_shedding (kat maxT : Int) (env : IterEnv) :
    (maxT > 0 → env.threadCount ≥ maxT →
      (iteration kat maxT env).2 ≠ IterExit.continueLoop
      ∧ countEv RunEvent.enterKeepAliveWait (iteration kat maxT env).1 = 0
      ∧ (env.reqs.isEmpty = false →
        qContains (qToLower env.reqs.headI.connectionHeader) "upgrade" = false →
        (dispatchLoop env.execute env.reqs 0).2 = none →
        (iteration kat maxT env).2 = IterExit.toReceiveEnd))
    ∧ (maxT ≤ 0 → ¬ kat = 0 →
      env.reqs.isEmpty = false →
      qContains (qToLower env.reqs.headI.connectionHeader) "upgrade" = false →
      (dispatchLoop env.execute env.reqs 0).2 = none →
      countEv RunEvent.enterKeepAliveWait (iteration kat maxT env).1 = 1) := by
  constructor
  · intro hm htc
    exact iteration_break kat maxT env (Or.inr ⟨htc, hm⟩)
  · intro hm hkat h1 h2 h3
    have hd : dispatchLoop env.execute env.reqs 0 =
        ((dispatchLoop env.execute env.reqs 0).1, none) := by
      rw [← h3]
    have hcnt : countEv RunEvent.enterKeepAliveWait
        (dispatchLoop env.execute env.reqs 0).1 = 0 :=
      dispatchLoop_count_ne env.execute env.reqs 0
        RunEvent.enterKeepAliveWait (fun t => by simp)
    unfold iteration
    rw [if_neg (by simp [h1]), if_neg (by simp [h2]), hd]
    have hnc : ¬(env.threadCount ≥ maxT ∧ maxT > 0) := by omega
    cases hka : env.kaOutcome <;> simp [hkat, hnc, countEv_append, countEv, hcnt]

def c5IterSat : IterEnv :=
  { reqs := [plainReq], execute := fun _ => DispatchOutcome.ok,
    searchEndpoint := fun _ => true, threadCount := 3,
    kaOutcome := KAOutcome.readyRead }

def c5IterUnb : IterEnv :=
  { reqs := [plainReq], execute := fun _ => DispatchOutcome.ok,
    searchEndpoint := fun _ => true, threadCount := 99,
    kaOutcome := KAOutcome.readyRead }

theorem max_threads_load_shedding_witness :
    (¬ (iteration 10 2 c5IterSat).2 = IterExit.continueLoop
      ∧ countEv RunEvent.enterKeepAliveWait (iteration 10 2 c5IterSat).1 = 0)
    ∧ countEv RunEvent.enterKeepAliveWait (iteration 10 0 c5IterUnb).1 = 1 :=
  ⟨⟨((max_threads_load_shedding 10 2 c5IterSat).1 (by decide) (by decide)).1,
    ((max_threads_load_shedding 10 2 c5IterSat).1 (by decide) (by decide)).2.1⟩,
   (max_threads_load_shedding 10 0 c5IterUnb).2 (by decide) (by decide)
     (by decide) (by decide) (by decide)⟩

theorem range_map_dispatch_zero (k : Nat) :
    (List.range k).map (fun t => RunEvent.dispatch (0 + t)) =
      (List.range k).map RunEvent.dispatch := by
  apply List.map_congr_left
  intro a _
  rw [Nat.zero_add]

/-- Claim C1 (amended): a ClientErrorException thrown while dispatching
unit k of a non-upgrade batch is caught: exactly units 0..k are dispatched,
a response carrying the exception's status code over a default-constructed
(empty) header is written, and the fault does not escape — but the worker
then falls past the loop to receive_end (the close path); the keep-alive
decision is NOT evaluated after the catch (no enterKeepAliveWait event).
Any other std::exception is caught the same way with an internal-server
-error (500) response. -/
theorem dispatch_fault_caught_then_close (kat maxT : Int) (env : IterEnv)
    (k s : Nat)
    (hne : env.reqs.isEmpty = false)
    (hup : qContains (qToLower env.reqs.headI.connectionHeader) "upgrade" = false)
    (hok : ∀ t, t < k → env.execute t = DispatchOutcome.ok)
    (hk : k < env.reqs.length) :
    (env.execute k = DispatchOutcome.clientError s →
      iteration kat maxT env =
        ((List.range (k + 1)).map RunEvent.dispatch ++
           [RunEvent.writeResponse s []],
         IterExit.toReceiveEnd))
    ∧ (env.execute k = DispatchOutcome.otherError →
      iteration kat maxT env =
        ((List.range (k + 1)).map RunEvent.dispatch ++
           [RunEvent.writeResponse internalServerError []],
         IterExit.toReceiveEnd)) := by
  constructor
  · intro hcl
    have hd := dispatchLoop_fault env.execute env.reqs 0 k (Fault.client s)
      (fun t ht => by rw [Nat.zero_add]; exact hok t ht) hk
      (by rw [Nat.zero_add, hcl]; rfl)
    unfold iteration
    rw [if_neg (by simp [hne]), if_neg (by simp [hup]), hd]
    simp [range_map_dispatch_zero]
  · intro hcl
    have hd := dispatchLoop_fault env.execute env.reqs 0 k Fault.other
      (fun t ht => by rw [Nat.zero_add]; exact hok t ht) hk
      (by rw [Nat.zero_add, hcl]; rfl)
    unfold iteration
    rw [if_neg (by simp [hne]), if_neg (by simp [hup]), hd]
    simp [range_map_dispatch_zero]

def c1IterFault : IterEnv :=
  { reqs := [plainReq], execute := fun _ => DispatchOutcome.clientError 400,
    searchEndpoint := fun _ => true, threadCount := 0,
    kaOutcome := KAOutcome.readyRead }

def c1IterOk : IterEnv :=
  { reqs := [plainReq], execute := fun _ => DispatchOutcome.ok,
    searchEndpoint := fun _ => true, threadCount := 0,
    kaOutcome := KAOutcome.readyRead }

theorem dispatch_fault_caught_then_close_witness :
    iteration 10 1000 c1IterFault =
      ((List.range (0 + 1)).map RunEvent.dispatch ++
         [RunEvent.writeResponse 400 []],
       IterExit.toReceiveEnd) :=
  (dispatch_fault_caught_then_close 10 1000 c1IterFault 0 400 (by decide)
    (by decide) (fun t ht => absurd ht (by omega)) (by decide)).1 rfl

/-- Claim C1 counterexample: with keep-alive timeout 10 and no saturation
(conditions under which a successful dispatch enters the keep-alive wait,
as the ok twin shows), a caught client fault is followed by NO keep-alive
evaluation: the iteration emits no enterKeepAliveWait event and exits to
receive_end, closing the connection — contradicting "keep-alive is
evaluated as normal after the catch". -/
theorem keepalive_not_evaluated_after_catch_cex :
    (iteration 10 1000 c1IterFault).1 =
      [RunEvent.dispatch 0, RunEvent.writeResponse 400 []]
    ∧ (iteration 10 1000 c1IterFault).2 = IterExit.toReceiveEnd
    ∧ countEv RunEvent.enterKeepAliveWait (iteration 10 1000 c1IterFault).1 = 0
    ∧ countEv RunEvent.enterKeepAliveWait (iteration 10 1000 c1IterOk).1 = 1
    ∧ (iteration 10 1000 c1IterOk).2 = IterExit.continueLoop := by
  decide

/-- Claim C4 (amended): a websocket upgrade request whose endpoint lookup
finds no match makes handshakeForWebSocket return false, and the worker
jumps to the error-cleanup path (goto socket_error: the handshake-failure
event then release only) — endpoint-not-found is terminal for the worker;
moreover in this code no handshake failure after an endpoint match exists:
handshakeForWebSocket returns true whenever searchEndpoint matches. -/
theorem endpoint_not_found_error_cleanup (kat maxT : Int) (env : IterEnv)
    (hne : env.reqs.isEmpty = false)
    (hup : qContains (qToLower env.reqs.headI.connectionHeader) "upgrade" = true)
    (hws : qToLower env.reqs.headI.upgradeHeader = "websocket")
    (hsearch : env.searchEndpoint env.reqs.headI = false) :
    handshakeForWebSocket env.searchEndpoint env.reqs.headI = false
    ∧ iteration kat maxT env = ([RunEvent.handshake false], IterExit.toError)
    ∧ (∀ h : THttpRequest, env.searchEndpoint h = true →
        handshakeForWebSocket env.searchEndpoint h = true) := by
  have hhs : handshakeForWebSocket env.searchEndpoint env.reqs.headI = false := by
    unfold handshakeForWebSocket
    rw [if_pos hsearch]
  refine ⟨hhs, ?_, ?_⟩
  · unfold iteration
    rw [if_neg (by simp [hne]), if_pos hup, if_pos hws, if_pos hhs]
  · intro h hh
    unfold handshakeForWebSocket
    rw [if_neg (by simp [hh])]

def c4Req : THttpRequest :=
  { connectionHeader := "Upgrade", upgradeHeader := "websocket" }

def c4Iter : IterEnv :=
  { reqs := [c4Req], execute := fun _ => DispatchOutcome.ok,
    searchEndpoint := fun _ => false, threadCount := 0,
    kaOutcome := KAOutcome.readyRead }

def c4Run : RunEnv := { setSocketOk := true, iters := fun _ => c4Iter }

theorem endpoint_not_found_error_cleanup_witness :
    iteration 10 0 c4Iter = ([RunEvent.handshake false], IterExit.toError) :=
  (endpoint_not_found_error_cleanup 10 0 c4Iter (by decide) (by decide)
    (by decide) rfl).2.1

/-- Claim C4 counterexample: a websocket upgrade whose endpoint lookup
fails sends the worker to socket_error, not to the normal close cleanup:
the exit tag is toError, the run trace ends in release only — no
closeHttpSocket and no event-queue drain — contradicting "the caller stays
in the normal flow / proceeds to the normal close cleanup". -/
theorem endpoint_not_found_cex :
    (iteration 10 0 c4Iter).2 = IterExit.toError
    ∧ ¬ (iteration 10 0 c4Iter).2 = IterExit.toCleanup
    ∧ run 10 0 c4Run 1 =
        some [RunEvent.counterInc, RunEvent.handshake false,
          RunEvent.release, RunEvent.counterDec]
    ∧ countEv RunEvent.drainEvents
        [RunEvent.counterInc, RunEvent.handshake false,
          RunEvent.release, RunEvent.counterDec] = 0
    ∧ countEv RunEvent.closeSocket
        [RunEvent.counterInc, RunEvent.handshake false,
          RunEvent.release, RunEvent.counterDec] = 0 := by
  decide

theorem iteration_upgrade_nonws (kat maxT : Int) (env : IterEnv)
    (hne : env.reqs.isEmpty = false)
    (hup : qContains (qToLower env.reqs.headI.connectionHeader) "upgrade" = true)
    (hws : ¬ qToLower env.reqs.headI.upgradeHeader = "websocket") :
    iteration kat maxT env = ([], IterExit.toCleanup) := by
  unfold iteration
  rw [if_neg (by simp [hne]), if_pos hup, if_neg hws]

/-- Claim C7: when the first request of a batch carries a Connection
header containing "upgrade" (case-insensitively) but an Upgrade header
other than "websocket", the worker dispatches nothing and transitions to
the closing cleanup via goto socket_cleanup: the whole run trace is
counterInc, the event-queue drain, the release of the socket object, and
counterDec — the pending event queue is drained, the socket handle is
released/destroyed, and zero dispatch calls occur. -/
theorem unrecognized_upgrade_clean_close (kat maxT : Int) (env : RunEnv)
    (fuel : Nat)
    (hsock : env.setSocketOk = true)
    (hfuel : 1 ≤ fuel)
    (hne : (env.iters 0).reqs.isEmpty = false)
    (hup : qContains (qToLower (env.iters 0).reqs.headI.connectionHeader)
      "upgrade" = true)
    (hws : ¬ qToLower (env.iters 0).reqs.headI.upgradeHeader = "websocket") :
    run kat maxT env fuel =
      some [RunEvent.counterInc, RunEvent.drainEvents, RunEvent.release,
        RunEvent.counterDec] := by
  obtain ⟨f, rfl⟩ : ∃ f, fuel = f + 1 := ⟨fuel - 1, by omega⟩
  unfold run
  rw [if_neg (by simp [hsock])]
  rw [runFrom, iteration_upgrade_nonws kat maxT (env.iters 0) hne hup hws]
  simp

def c7Req : THttpRequest :=
  { connectionHeader := "keep-alive, Upgrade", upgradeHeader := "h2c" }

def c7Iter : IterEnv :=
  { reqs := [c7Req], execute := fun _ => DispatchOutcome.ok,
    searchEndpoint := fun _ => true, threadCount := 0,
    kaOutcome := KAOutcome.readyRead }

def c7Run : RunEnv := { setSocketOk := true, iters := fun _ => c7Iter }

theorem unrecognized_upgrade_clean_close_witness :
    run 10 0 c7Run 1 =
      some [RunEvent.counterInc, RunEvent.drainEvents, RunEvent.release,
        RunEvent.counterDec] :=
  unrecognized_upgrade_clean_close 10 0 c7Run 1 rfl (by omega) (by decide)
    (by decide) (by decide)

theorem iteration_events_shape (kat maxT : Int) (env : IterEnv) :
    ∀ e ∈ (iteration kat maxT env).1,
      (∃ t, e = RunEvent.dispatch t)
      ∨ (∃ s hs, e = RunEvent.writeResponse s hs)
      ∨ (∃ b, e = RunEvent.handshake b)
      ∨ e = RunEvent.enterKeepAliveWait := by
  have hdl : ∀ (l : List RunEvent) (f : Option Fault),
      dispatchLoop env.execute env.reqs 0 = (l, f) →
      ∀ e ∈ l, ∃ t, e = RunEvent.dispatch t := by
    intro l f hd e he
    have := dispatchLoop_events env.execute env.reqs 0 e
    rw [hd] at this
    exact this he
  unfold iteration
  split
  · intro e he; simp at he
  · split
    · split
      · split
        · intro e he
          simp at he
          exact Or.inr (Or.inr (Or.inl ⟨false, he⟩))
        · intro e he
          simp at he
          exact Or.inr (Or.inr (Or.inl ⟨true, he⟩))
      · intro e he; simp at he
    · split
      · rename_i evs s heq
        intro e he
        simp at he
        rcases he with he | he
        · exact Or.inl (hdl _ _ heq e he)
        · exact Or.inr (Or.inl ⟨s, [], he⟩)
      · rename_i evs heq
        intro e he
        simp at he
        rcases he with he | he
        · exact Or.inl (hdl _ _ heq e he)
        · exact Or.inr (Or.inl ⟨internalServerError, [], he⟩)
      · rename_i evs heq
        split
        · intro e he
          exact Or.inl (hdl _ _ heq e he)
        · split
          · intro e he
            exact Or.inl (hdl _ _ heq e he)
          · split <;>
            · intro e he
              simp at he
              rcases he with he | he
              · exact Or.inl (hdl _ _ heq e he)
              · exact Or.inr (Or.inr (Or.inr he))

theorem iteration_count_counterInc (kat maxT : Int) (env : IterEnv) :
    countEv RunEvent.counterInc (iteration kat maxT env).1 = 0 := by
  apply countEv_eq_zero
  intro e he heq
  rcases iteration_events_shape kat maxT env e he with ⟨t, rfl⟩ | ⟨s, hs, rfl⟩ | ⟨b, rfl⟩ | rfl <;>
    simp at heq

theorem iteration_count_counterDec (kat maxT : Int) (env : IterEnv) :
    countEv RunEvent.counterDec (iteration kat maxT env).1 = 0 := by
  apply countEv_eq_zero
  intro e he heq
  rcases iteration_events_shape kat maxT env e he with ⟨t, rfl⟩ | ⟨s, hs, rfl⟩ | ⟨b, rfl⟩ | rfl <;>
    simp at heq

theorem runFrom_counter_free (kat maxT : Int) (iters : Nat → IterEnv) :
    ∀ (fuel i : Nat) (evs : List RunEvent),
      runFrom kat maxT iters fuel i = some evs →
      countEv RunEvent.counterInc evs = 0 ∧ countEv RunEvent.counterDec evs = 0 := by
  intro fuel
  induction fuel with
  | zero =>
    intro i evs h
    simp [runFrom] at h
  | succ fuel ih =>
    intro i evs h
    rw [runFrom] at h
    split at h
    · rcases Option.map_eq_some'.mp h with ⟨evs', h', rfl⟩
      rcases ih (i + 1) evs' h' with ⟨h1, h2⟩
      constructor <;>
        simp [countEv_append, h1, h2, iteration_count_counterInc,
          iteration_count_counterDec]
    · rcases Option.some.injEq .. ▸ h with rfl
      constructor <;>
        simp [countEv_append, countEv, iteration_count_counterInc,
          iteration_count_counterDec]
    · rcases Option.some.injEq .. ▸ h with rfl
      constructor <;>
        simp [countEv_append, countEv, iteration_count_counterInc,
          iteration_count_counterDec]
    · rcases Option.some.injEq .. ▸ h with rfl
      constructor <;>
        simp [countEv_append, countEv, iteration_count_counterInc,
          iteration_count_counterDec]

/-- Claim C3: on every terminating execution of run — setSocketDescriptor
failure, normal close, upgrade success, upgrade failure, caught dispatch
fault — the scoped Counter guard increments the process-wide counter
exactly once, as the very first action, and decrements it exactly once, as
the very last action; no path decrements twice, so the counter always
equals the number of workers whose run has started but not yet exited. -/
theorem counter_paired_every_path (kat maxT : Int) (env : RunEnv)
    (fuel : Nat) (evs : List RunEvent)
    (h : run kat maxT env fuel = some evs) :
    countEv RunEvent.counterInc evs = 1
    ∧ countEv RunEvent.counterDec evs = 1
    ∧ evs.head? = some RunEvent.counterInc
    ∧ evs.getLast? = some RunEvent.counterDec := by
  unfold run at h
  by_cases hset : env.setSocketOk = false
  · rw [if_pos hset] at h
    rcases Option.some.injEq .. ▸ h with rfl
    exact ⟨rfl, rfl, rfl, rfl⟩
  · rw [if_neg hset] at h
    rcases Option.map_eq_some'.mp h with ⟨evs', h', rfl⟩
    rcases runFrom_counter_free kat maxT env.iters fuel 0 evs' h' with ⟨h1, h2⟩
    refine ⟨?_, ?_, rfl, ?_⟩
    · simp [countEv, countEv_append, h1]
    · simp [countEv, countEv_append, h2]
    · rw [show RunEvent.counterInc :: (evs' ++ [RunEvent.counterDec]) =
        (RunEvent.counterInc :: evs') ++ [RunEvent.counterDec] from rfl]
      exact List.getLast?_concat _

def c3Iter : IterEnv :=
  { reqs := [], execute := fun _ => DispatchOutcome.ok,
    searchEndpoint := fun _ => true, threadCount := 0,
    kaOutcome := KAOutcome.readyRead }

def c3Run : RunEnv := { setSocketOk := true, iters := fun _ => c3Iter }

theorem counter_paired_every_path_witness :
    countEv RunEvent.counterInc
        [RunEvent.counterInc, RunEvent.closeSocket, RunEvent.drainEvents,
          RunEvent.release, RunEvent.counterDec] = 1
    ∧ countEv RunEvent.counterDec
        [RunEvent.counterInc, RunEvent.closeSocket, RunEvent.drainEvents,
          RunEvent.release, RunEvent.counterDec] = 1
    ∧ List.head? [RunEvent.counterInc, RunEvent.closeSocket, RunEvent.drainEvents,
          RunEvent.release, RunEvent.counterDec] = some RunEvent.counterInc
    ∧ List.getLast? [RunEvent.counterInc, RunEvent.closeSocket, RunEvent.drainEvents,
          RunEvent.release, RunEvent.counterDec] = some RunEvent.counterDec :=
  counter_paired_every_path 10 0 c3Run 1
    [RunEvent.counterInc, RunEvent.closeSocket, RunEvent.drainEvents,
      RunEvent.release, RunEvent.counterDec] (by decide)

end TreeFrog
